import Mathlib

/-!
Verification of the MayaLens generation-job lifecycle and product-image
upload paths, shallowly embedded from
`src/api/src/controllers/imageController.ts` and the image router in
`src/api/src/routes/products.ts`.

The controller persists `ImageGeneration` records through Prisma; we model
the relevant tables as lists inside a `Db` record and the Prisma
`update(\x7bwhere: \x7bid\x7d\x7d)` call as an unconditional map over the
generations list. The mocked asynchronous generation (`setTimeout`) is
modelled as a separate timer event: submitting a job schedules exactly one
timer for the new job id, and firing that timer applies either the success
update (status COMPLETED, imageUrl set, completedAt set) or the failure
update (status FAILED, errorMessage set), exactly as the two
`prisma.imageGeneration.update` calls in the timer callback do.
-/

/-- Generation status enum. The Prisma schema is not part of the checked
sources; the enum members are those the spec lists (`PENDING`, `RUNNING`,
`COMPLETED`, `FAILED`). The controller code only ever writes `PENDING`,
`COMPLETED` and `FAILED`. -/
inductive GenerationStatus
  | PENDING
  | RUNNING
  | COMPLETED
  | FAILED
deriving DecidableEq, Repr

/-- User roles. The controllers branch only on `UserRole.ADMIN`; every
other role is equivalent for the checked code paths and is collapsed into
`USER`. -/
inductive UserRole
  | ADMIN
  | USER
deriving DecidableEq, Repr

/-- The fields of an authenticated user that the image controller reads
(`req.user.id`, `req.user.role`). -/
structure User where
  id : Nat
  role : UserRole
deriving DecidableEq, Repr

/-- The fields of a product that the image controller selects
(`id`, `userId`, `name`). -/
structure Product where
  id : Nat
  userId : Nat
  name : String
deriving DecidableEq, Repr

/-- An `ImageGeneration` row as created and updated by `generateImage`:
`prompt`, `style`, `format`, `status`, `userId`, optional `productId`,
and the result fields `imageUrl`, `errorMessage`, `completedAt`. -/
structure ImageGeneration where
  id : Nat
  prompt : String
  style : String
  format : String
  status : GenerationStatus
  userId : Nat
  productId : Option Nat
  imageUrl : Option String
  errorMessage : Option String
  completedAt : Option Nat
deriving DecidableEq, Repr

/-- A `ProductImage` row as created by `uploadProductImage`. -/
structure ProductImage where
  id : Nat
  productId : Nat
  imageUrl : String
  altText : String
  isPrimary : Bool
deriving DecidableEq, Repr

/-- The database state the image controller touches: the `product`,
`imageGeneration` and `productImage` tables, plus a fresh-id counter
standing in for Prisma id generation. -/
structure Db where
  products : List Product
  generations : List ImageGeneration
  productImages : List ProductImage
  nextId : Nat
deriving DecidableEq, Repr

/-- Body of an HTTP JSON response, reduced to the parts the claims are
about: an error code, a created or fetched generation record, or a created
product-image record. -/
inductive RespBody
  | errorBody (code : String)
  | jobBody (job : ImageGeneration)
  | imageBody (img : ProductImage)
deriving DecidableEq, Repr

/-- An HTTP response: status code plus body. -/
structure HttpResult where
  status : Nat
  body : RespBody
deriving DecidableEq, Repr

/-- The request body of `POST /api/images/generate` after route-level
validation: `prompt`, `style`, `format` (the `ImageFormat.PNG` default has
already been applied by destructuring) and the optional `productId`. -/
structure GenRequest where
  prompt : String
  style : String
  format : String
  productId : Option Nat
deriving DecidableEq, Repr

/-- `prisma.product.findUnique(\x7bwhere: \x7bid\x7d\x7d)`. -/
def findProduct (db : Db) (pid : Nat) : Option Product :=
  db.products.find? (fun p => p.id == pid)

/-- `prisma.imageGeneration.findUnique(\x7bwhere: \x7bid\x7d\x7d)`. -/
def findGeneration (db : Db) (id : Nat) : Option ImageGeneration :=
  db.generations.find? (fun j => j.id == id)

/-- `prisma.imageGeneration.update(\x7bwhere: \x7bid\x7d, data\x7d)`: the
row whose unique id matches is replaced by the patched row; the update is
unconditional on the row's current state. -/
def updateGeneration (db : Db) (id : Nat) (f : ImageGeneration → ImageGeneration) : Db :=
  { db with generations := db.generations.map (fun j => if j.id == id then f j else j) }

/-- The placeholder URL the mocked generation produces for a style. The
`encodeURIComponent` call is elided; no claim depends on the text of the
URL, only on the field being set. -/
def mockImageUrl (style : String) : String :=
  "https://via.placeholder.com/512x512/4F46E5/FFFFFF?text=" ++ style

/-- The success path of the `setTimeout` callback in `generateImage`:
status := COMPLETED, imageUrl := mock URL built from the job's style,
completedAt := the current time `t`. -/
def simulateSuccess (db : Db) (id : Nat) (t : Nat) : Db :=
  updateGeneration db id (fun j =>
    { j with status := GenerationStatus.COMPLETED,
             imageUrl := some (mockImageUrl j.style),
             completedAt := some t })

/-- The catch path of the `setTimeout` callback in `generateImage`:
status := FAILED, errorMessage := the fixed message. -/
def simulateFailure (db : Db) (id : Nat) : Db :=
  updateGeneration db id (fun j =>
    { j with status := GenerationStatus.FAILED,
             errorMessage := some "Image generation failed" })

/-- The record `generateImage` creates: status PENDING, owner = the
caller, result fields unset. Its id is the fresh id of the database. -/
def createdJob (u : User) (req : GenRequest) (db : Db) : ImageGeneration :=
  { id := db.nextId
    prompt := req.prompt
    style := req.style
    format := req.format
    status := GenerationStatus.PENDING
    userId := u.id
    productId := req.productId
    imageUrl := none
    errorMessage := none
    completedAt := none }

/-- `prisma.imageGeneration.create` followed by the `202 Accepted`
response carrying the new record. -/
def createJob (u : User) (req : GenRequest) (db : Db) : HttpResult × Db :=
  ({ status := 202, body := RespBody.jobBody (createdJob u req db) },
   { db with generations := db.generations ++ [createdJob u req db],
             nextId := db.nextId + 1 })

/-- `generateImage` (imageController.ts, lines 311-429), synchronous part:
401 when unauthenticated; when a `productId` is given, 404 when the
product does not exist and 403 when the caller is neither admin nor the
product's owner; otherwise creates a PENDING record and responds 202.
The `setTimeout` continuation is modelled separately by the timer events
below. -/
def generateImage (user : Option User) (req : GenRequest) (db : Db) : HttpResult × Db :=
  match user with
  | none => ({ status := 401, body := RespBody.errorBody "NOT_AUTHENTICATED" }, db)
  | some u =>
    match req.productId with
    | some pid =>
      match findProduct db pid with
      | none => ({ status := 404, body := RespBody.errorBody "PRODUCT_NOT_FOUND" }, db)
      | some p =>
        if u.role == UserRole.ADMIN || u.id == p.userId then
          createJob u req db
        else
          ({ status := 403, body := RespBody.errorBody "INSUFFICIENT_PERMISSIONS" }, db)
    | none => createJob u req db

/-- Whether the caller may read a generation record, exactly as computed
at imageController.ts line 474: admin or owner; an absent user fails the
optional-chaining comparisons. -/
def canAccessGeneration (user : Option User) (j : ImageGeneration) : Bool :=
  match user with
  | some u => u.role == UserRole.ADMIN || u.id == j.userId
  | none => false

/-- `getImageGeneration` (imageController.ts, lines 432-497): 404 when the
record is absent, 403 when the caller is neither admin nor owner, 200 with
the record otherwise. The handler performs no writes; the returned
database is the input database. -/
def getImageGeneration (user : Option User) (id : Nat) (db : Db) : HttpResult × Db :=
  match findGeneration db id with
  | none => ({ status := 404, body := RespBody.errorBody "GENERATION_NOT_FOUND" }, db)
  | some j =>
    if canAccessGeneration user j then
      ({ status := 200, body := RespBody.jobBody j }, db)
    else
      ({ status := 403, body := RespBody.errorBody "INSUFFICIENT_PERMISSIONS" }, db)

/-- `prisma.productImage.updateMany(\x7bwhere: \x7bproductId, isPrimary:
true\x7d, data: \x7bisPrimary: false\x7d\x7d)`: demote every primary image
of the product. -/
def demotePrimary (db : Db) (pid : Nat) : Db :=
  { db with productImages := db.productImages.map (fun i =>
      if i.productId == pid && i.isPrimary then { i with isPrimary := false } else i) }

/-- The `ProductImage` record `uploadProductImage` creates. -/
def createdImage (pid : Nat) (url : String) (altText : Option String)
    (p : Product) (isPrim : Bool) (db : Db) : ProductImage :=
  { id := db.nextId
    productId := pid
    imageUrl := url
    altText := altText.getD (p.name ++ " product image")
    isPrimary := isPrim }

/-- `uploadProductImage` (imageController.ts, lines 44-162): 401 when
unauthenticated, 400 when no file was sent, 404 when the product does not
exist, 403 when the caller is neither admin nor owner; otherwise, when the
new image is primary, first demote all primary images of the product, then
create the record and respond 201. Image processing and the storage upload
are external; `url` stands for the URL the storage service returned. -/
def uploadProductImage (user : Option User) (pid : Nat) (hasFile : Bool)
    (isPrim : Bool) (altText : Option String) (url : String) (db : Db) :
    HttpResult × Db :=
  match user with
  | none => ({ status := 401, body := RespBody.errorBody "NOT_AUTHENTICATED" }, db)
  | some u =>
    if !hasFile then
      ({ status := 400, body := RespBody.errorBody "NO_FILE_PROVIDED" }, db)
    else
      match findProduct db pid with
      | none => ({ status := 404, body := RespBody.errorBody "PRODUCT_NOT_FOUND" }, db)
      | some p =>
        if u.role == UserRole.ADMIN || u.id == p.userId then
          let db1 := if isPrim then demotePrimary db pid else db
          let img := createdImage pid url altText p isPrim db1
          ({ status := 201, body := RespBody.imageBody img },
           { db1 with productImages := db1.productImages ++ [img],
                      nextId := db1.nextId + 1 })
        else
          ({ status := 403, body := RespBody.errorBody "INSUFFICIENT_PERMISSIONS" }, db)

/-- Number of primary images stored for a product. -/
def countPrimary (db : Db) (pid : Nat) : Nat :=
  db.productImages.countP (fun i => i.productId == pid && i.isPrimary)

example :
    (generateImage (some { id := 7, role := UserRole.USER })
      { prompt := "p", style := "s", format := "PNG", productId := none }
      { products := [], generations := [], productImages := [], nextId := 0 }).1.status = 202 := by
  decide

example :
    (getImageGeneration (some { id := 7, role := UserRole.USER }) 3
      { products := [], generations := [], productImages := [], nextId := 0 }).1.status = 404 := by
  decide

/-- Full system state: the database plus the multiset of scheduled
`setTimeout` callbacks, identified by the job id each will update. The
JavaScript event loop fires each registered callback exactly once; a job
gains one timer at creation and loses it when the timer fires. -/
structure SysState where
  db : Db
  timers : List Nat
deriving DecidableEq, Repr

/-- The empty initial state. -/
def initState : SysState :=
  { db := { products := [], generations := [], productImages := [], nextId := 0 },
    timers := [] }

/-- Effect of one `generateImage` request on the system state: the
database is the one the handler returns, and on the 202 path a timer is
scheduled for the created job (whose id is the fresh id of the database
the request started from). -/
def applySubmit (user : Option User) (req : GenRequest) (s : SysState) : SysState :=
  let r := generateImage user req s.db
  if r.1.status == 202 then
    { db := r.2, timers := s.timers ++ [s.db.nextId] }
  else
    { db := r.2, timers := s.timers }

/-- Effect of one timer callback firing for job `id`: the timer is
consumed and the database receives either the success update (at time `t`)
or the failure update. -/
def applyTimer (id : Nat) (ok : Bool) (t : Nat) (s : SysState) : SysState :=
  { db := if ok then simulateSuccess s.db id t else simulateFailure s.db id,
    timers := s.timers.erase id }

/-- One step of the system: a submission request, or a scheduled timer
firing. Timers can only fire while scheduled. -/
inductive Step : SysState → SysState → Prop
  | submit (user : Option User) (req : GenRequest) (s : SysState) :
      Step s (applySubmit user req s)
  | timer (id : Nat) (ok : Bool) (t : Nat) (s : SysState) (h : id ∈ s.timers) :
      Step s (applyTimer id ok t s)

/-- States reachable from the empty state by submissions and timer
firings. -/
def Reachable (s : SysState) : Prop :=
  Relation.ReflTransGen Step initState s

/-- The field discipline claimed for each status: result fields unset
while PENDING or RUNNING; `imageUrl` set and `errorMessage` unset when
COMPLETED; `errorMessage` set and `imageUrl` unset when FAILED. -/
def fieldsOk (j : ImageGeneration) : Bool :=
  match j.status with
  | GenerationStatus.PENDING => j.imageUrl.isNone && j.errorMessage.isNone
  | GenerationStatus.RUNNING => j.imageUrl.isNone && j.errorMessage.isNone
  | GenerationStatus.COMPLETED => j.imageUrl.isSome && j.errorMessage.isNone
  | GenerationStatus.FAILED => j.errorMessage.isSome && j.imageUrl.isNone

/-- Structural invariant of reachable states: job ids are bounded by the
fresh-id counter and distinct, scheduled timers are distinct and bounded,
every job satisfies the field discipline, and a job with a scheduled timer
is still PENDING. -/
def SysInv (s : SysState) : Prop :=
  (∀ j ∈ s.db.generations, j.id < s.db.nextId) ∧
  (s.db.generations.map (fun j => j.id)).Nodup ∧
  s.timers.Nodup ∧
  (∀ id ∈ s.timers, id < s.db.nextId) ∧
  (∀ j ∈ s.db.generations, fieldsOk j = true ∧ (j.id ∈ s.timers → j.status = GenerationStatus.PENDING))

theorem sysInv_init : SysInv initState := by
  refine ⟨?_, ?_, ?_, ?_, ?_⟩ <;> simp [initState, SysInv]

/-- Case analysis on the synchronous part of `generateImage`: either it
created (status 202, database extended by the created job with the counter
bumped, as `createJob` does) or it rejected (status not 202, database
unchanged). -/
theorem generateImage_cases (user : Option User) (req : GenRequest) (db : Db) :
    (∃ u, user = some u ∧ generateImage user req db = createJob u req db) ∨
    ((generateImage user req db).1.status ≠ 202 ∧ (generateImage user req db).2 = db) := by
  match user with
  | none => right; simp [generateImage]
  | some u =>
    match hreq : req.productId with
    | some pid =>
      match hf : findProduct db pid with
      | none => right; simp [generateImage, hreq, hf]
      | some p =>
        by_cases hc : (u.role == UserRole.ADMIN || u.id == p.userId) = true
        · left; exact ⟨u, rfl, by simp [generateImage, hreq, hf, hc]⟩
        · right; simp [generateImage, hreq, hf, hc]
    | none =>
      left; exact ⟨u, rfl, by simp [generateImage, hreq]⟩

theorem updateGeneration_map_id (db : Db) (id : Nat) (f : ImageGeneration → ImageGeneration)
    (hf : ∀ j, (f j).id = j.id) :
    (updateGeneration db id f).generations.map (fun j => j.id) =
      db.generations.map (fun j => j.id) := by
  simp only [updateGeneration, List.map_map]
  refine List.map_congr_left ?_
  intro j _
  simp only [Function.comp_apply]
  split
  · exact hf j
  · rfl

theorem mem_updateGeneration {db : Db} {id : Nat} {f : ImageGeneration → ImageGeneration}
    {j' : ImageGeneration} :
    j' ∈ (updateGeneration db id f).generations ↔
      ∃ j ∈ db.generations, j' = if j.id == id then f j else j := by
  simp only [updateGeneration, List.mem_map]
  constructor
  · rintro ⟨j, hj, rfl⟩; exact ⟨j, hj, rfl⟩
  · rintro ⟨j, hj, rfl⟩; exact ⟨j, hj, rfl⟩

theorem sysInv_applyTimer_aux (s : SysState) (id : Nat) (f : ImageGeneration → ImageGeneration)
    (hs : SysInv s) (hmem : id ∈ s.timers)
    (hfid : ∀ j, (f j).id = j.id)
    (hfok : ∀ j, j.status = GenerationStatus.PENDING → fieldsOk j = true → fieldsOk (f j) = true) :
    SysInv { db := updateGeneration s.db id f, timers := s.timers.erase id } := by
  obtain ⟨hb, hnd, htnd, htb, hjobs⟩ := hs
  refine ⟨?_, ?_, ?_, ?_, ?_⟩
  · intro j' hj'
    obtain ⟨j, hj, rfl⟩ := mem_updateGeneration.mp hj'
    have hlt := hb j hj
    show (if j.id == id then f j else j).id < s.db.nextId
    split
    · rw [hfid]; exact hlt
    · exact hlt
  · show ((updateGeneration s.db id f).generations.map (fun j => j.id)).Nodup
    rw [updateGeneration_map_id _ _ _ hfid]
    exact hnd
  · exact htnd.erase id
  · intro i hi
    exact htb i (List.mem_of_mem_erase hi)
  · intro j' hj'
    obtain ⟨j, hj, rfl⟩ := mem_updateGeneration.mp hj'
    split
    next h =>
      have hid : j.id = id := by simpa using h
      have hpend : j.status = GenerationStatus.PENDING :=
        (hjobs j hj).2 (by rw [hid]; exact hmem)
      refine ⟨hfok j hpend (hjobs j hj).1, ?_⟩
      intro hmem'
      rw [hfid j, hid] at hmem'
      exact absurd hmem' htnd.not_mem_erase
    next h =>
      refine ⟨(hjobs j hj).1, ?_⟩
      intro hmem'
      exact (hjobs j hj).2 (List.mem_of_mem_erase hmem')

theorem step_preserves_sysInv {s s' : SysState} (hs : SysInv s) (hstep : Step s s') :
    SysInv s' := by
  cases hstep with
  | submit user req s =>
    rcases generateImage_cases user req s.db with ⟨u, hu, heq⟩ | ⟨hne, hdb⟩
    · obtain ⟨hb, hnd, htnd, htb, hjobs⟩ := hs
      have happ : applySubmit user req s =
          { db := (createJob u req s.db).2, timers := s.timers ++ [s.db.nextId] } := by
        simp only [applySubmit, heq]
        rfl
      rw [happ]
      have hgen : (createJob u req s.db).2.generations =
          s.db.generations ++ [createdJob u req s.db] := rfl
      have hnext : (createJob u req s.db).2.nextId = s.db.nextId + 1 := rfl
      refine ⟨?_, ?_, ?_, ?_, ?_⟩
      · intro j hj
        rw [hgen] at hj
        rw [hnext]
        rcases List.mem_append.mp hj with h1 | h1
        · exact Nat.lt_succ_of_lt (hb j h1)
        · simp only [List.mem_singleton] at h1
          subst h1
          simp [createdJob]
      · rw [hgen, List.map_append, List.nodup_append]
        refine ⟨hnd, by simp, ?_⟩
        intro a ha ha2
        simp only [List.map_cons, List.map_nil, List.mem_singleton, createdJob] at ha2
        obtain ⟨j, hj, rfl⟩ := List.mem_map.mp ha
        exact absurd (hb _ hj) (by rw [ha2]; exact Nat.lt_irrefl _)
      · rw [List.nodup_append]
        refine ⟨htnd, by simp, ?_⟩
        intro a ha ha2
        simp only [List.mem_singleton] at ha2
        exact absurd (htb a ha) (by rw [ha2]; exact Nat.lt_irrefl _)
      · intro i hi
        rw [hnext]
        rcases List.mem_append.mp hi with h1 | h1
        · exact Nat.lt_succ_of_lt (htb i h1)
        · simp only [List.mem_singleton] at h1
          subst h1
          exact Nat.lt_succ_self _
      · intro j hj
        rw [hgen] at hj
        rcases List.mem_append.mp hj with h1 | h1
        · refine ⟨(hjobs j h1).1, ?_⟩
          intro hmem
          rcases List.mem_append.mp hmem with h2 | h2
          · exact (hjobs j h1).2 h2
          · simp only [List.mem_singleton] at h2
            exact absurd (hb j h1) (by rw [h2]; exact Nat.lt_irrefl _)
        · simp only [List.mem_singleton] at h1
          subst h1
          exact ⟨by simp [createdJob, fieldsOk], fun _ => rfl⟩
    · have hcond : ((generateImage user req s.db).1.status == 202) = false := by
        simpa using hne
      have happ : applySubmit user req s = s := by
        simp [applySubmit, hcond, hdb]
      rw [happ]
      exact hs
  | timer id ok t s hmem =>
    cases ok with
    | true =>
      exact sysInv_applyTimer_aux s id
        (fun j => { j with status := GenerationStatus.COMPLETED,
                           imageUrl := some (mockImageUrl j.style),
                           completedAt := some t })
        hs hmem (fun j => rfl)
        (fun j hst hfo => by
          simp only [fieldsOk, hst, Bool.and_eq_true] at hfo
          simp [fieldsOk, hfo.2])
    | false =>
      exact sysInv_applyTimer_aux s id
        (fun j => { j with status := GenerationStatus.FAILED,
                           errorMessage := some "Image generation failed" })
        hs hmem (fun j => rfl)
        (fun j hst hfo => by
          simp only [fieldsOk, hst, Bool.and_eq_true] at hfo
          simp [fieldsOk, hfo.1])

theorem reachable_sysInv {s : SysState} (h : Reachable s) : SysInv s := by
  induction h with
  | refl => exact sysInv_init
  | tail hsteps hstep ih => exact step_preserves_sysInv ih hstep

/-- A concrete caller used in witnesses. -/
def userW : User := { id := 7, role := UserRole.USER }

/-- A concrete submission request used in witnesses. -/
def reqW : GenRequest :=
  { prompt := "a red shoe", style := "studio", format := "PNG", productId := none }

/-- State after one submission from the empty state: one PENDING job with
one scheduled timer. -/
def stateW1 : SysState := applySubmit (some userW) reqW initState

/-- State after the job's timer fires successfully at time 5. -/
def stateW2 : SysState := applyTimer 0 true 5 stateW1

/-- State after the job's timer fires on the failure path instead. -/
def stateW2f : SysState := applyTimer 0 false 5 stateW1

/-- The PENDING job record present in `stateW1`. -/
def jobW1 : ImageGeneration := createdJob userW reqW initState.db

/-- The COMPLETED job record present in `stateW2`. -/
def jobW2 : ImageGeneration :=
  { jobW1 with status := GenerationStatus.COMPLETED,
               imageUrl := some (mockImageUrl "studio"),
               completedAt := some 5 }

/-- The FAILED job record present in `stateW2f`. -/
def jobW2f : ImageGeneration :=
  { jobW1 with status := GenerationStatus.FAILED,
               errorMessage := some "Image generation failed" }

theorem reachableW1 : Reachable stateW1 :=
  Relation.ReflTransGen.tail Relation.ReflTransGen.refl (Step.submit (some userW) reqW initState)

theorem reachableW2 : Reachable stateW2 :=
  Relation.ReflTransGen.tail reachableW1 (Step.timer 0 true 5 stateW1 (by decide))

theorem reachableW2f : Reachable stateW2f :=
  Relation.ReflTransGen.tail reachableW1 (Step.timer 0 false 5 stateW1 (by decide))

/-- Claim C2: in every reachable state, a COMPLETED job has its result
asset reference (`imageUrl`) set and no error cause (`errorMessage`); a
FAILED job has the error cause set and no result reference; a PENDING or
RUNNING job has neither. -/
theorem c2_terminal_fields_invariant {s : SysState} (hr : Reachable s)
    {j : ImageGeneration} (hj : j ∈ s.db.generations) :
    (j.status = GenerationStatus.COMPLETED → j.imageUrl.isSome = true ∧ j.errorMessage = none) ∧
    (j.status = GenerationStatus.FAILED → j.errorMessage.isSome = true ∧ j.imageUrl = none) ∧
    ((j.status = GenerationStatus.PENDING ∨ j.status = GenerationStatus.RUNNING) →
      j.imageUrl = none ∧ j.errorMessage = none) := by
  have hfo := ((reachable_sysInv hr).2.2.2.2 j hj).1
  refine ⟨?_, ?_, ?_⟩
  · intro hst
    simp only [fieldsOk, hst, Bool.and_eq_true] at hfo
    exact ⟨hfo.1, Option.isNone_iff_eq_none.mp hfo.2⟩
  · intro hst
    simp only [fieldsOk, hst, Bool.and_eq_true] at hfo
    exact ⟨hfo.1, Option.isNone_iff_eq_none.mp hfo.2⟩
  · intro hst
    rcases hst with hst | hst <;>
      · simp only [fieldsOk, hst, Bool.and_eq_true] at hfo
        exact ⟨Option.isNone_iff_eq_none.mp hfo.1, Option.isNone_iff_eq_none.mp hfo.2⟩

theorem c2_witness :
    jobW2 ∈ stateW2.db.generations ∧ jobW2.status = GenerationStatus.COMPLETED ∧
      jobW2.imageUrl.isSome = true ∧ jobW2.errorMessage = none :=
  ⟨by decide, by decide,
    (c2_terminal_fields_invariant reachableW2 (show jobW2 ∈ stateW2.db.generations by decide)).1
      (by decide)⟩

/-- The set of state transitions claim C1 allows, written from the spec's
words: PENDING→RUNNING, RUNNING→PENDING, RUNNING→COMPLETED,
RUNNING→FAILED, PENDING→FAILED. Used only to compare the claimed state
machine with the one the code implements. -/
def claimAllowedEdge : GenerationStatus → GenerationStatus → Bool
  | GenerationStatus.PENDING, GenerationStatus.RUNNING => true
  | GenerationStatus.RUNNING, GenerationStatus.PENDING => true
  | GenerationStatus.RUNNING, GenerationStatus.COMPLETED => true
  | GenerationStatus.RUNNING, GenerationStatus.FAILED => true
  | GenerationStatus.PENDING, GenerationStatus.FAILED => true
  | _, _ => false

/-- Counterexample to claim C1 as stated: in a real reachable execution
(one submission, then its timer firing on the success path) the job moves
PENDING→COMPLETED. That edge is outside the claimed edge set (even with
PENDING→FAILED counted as allowed regardless of cause), yet the operation
is not rejected and the record changes: the code never enters RUNNING and
rejects no transition. -/
theorem c1_transition_counterexample :
    Reachable stateW1 ∧ Step stateW1 stateW2 ∧
    jobW1 ∈ stateW1.db.generations ∧ jobW2 ∈ stateW2.db.generations ∧
    jobW2.id = jobW1.id ∧
    jobW1.status = GenerationStatus.PENDING ∧
    jobW2.status = GenerationStatus.COMPLETED ∧
    claimAllowedEdge jobW1.status jobW2.status = false ∧
    stateW2 ≠ stateW1 :=
  ⟨reachableW1, Step.timer 0 true 5 stateW1 (by decide), by decide, by decide,
   by decide, by decide, by decide, by decide, by decide⟩

/-- Claim C1, amended to what the code does: in any reachable execution a
job's state changes only along the edges PENDING→COMPLETED and
PENDING→FAILED (the 'simulate async processing' callback resolves a
PENDING job directly; RUNNING is never entered and no transition is
rejected). -/
theorem c1_state_transitions_amended {s s' : SysState} (hr : Reachable s) (hstep : Step s s')
    {j j' : ImageGeneration} (hj : j ∈ s.db.generations) (hj' : j' ∈ s'.db.generations)
    (hid : j'.id = j.id) (hne : j'.status ≠ j.status) :
    j.status = GenerationStatus.PENDING ∧
    (j'.status = GenerationStatus.COMPLETED ∨ j'.status = GenerationStatus.FAILED) := by
  obtain ⟨hb, hnd, htnd, htb, hjobs⟩ := reachable_sysInv hr
  cases hstep with
  | submit user req s =>
    rcases generateImage_cases user req s.db with ⟨u, hu, heq⟩ | ⟨hne2, hdb⟩
    · have happ : applySubmit user req s =
          { db := (createJob u req s.db).2, timers := s.timers ++ [s.db.nextId] } := by
        simp only [applySubmit, heq]
        rfl
      rw [happ] at hj'
      have hgen : (createJob u req s.db).2.generations =
          s.db.generations ++ [createdJob u req s.db] := rfl
      rw [hgen] at hj'
      rcases List.mem_append.mp hj' with h1 | h1
      · exact absurd (congrArg ImageGeneration.status
          (List.inj_on_of_nodup_map hnd h1 hj hid)) hne
      · simp only [List.mem_singleton] at h1
        have : j'.id = s.db.nextId := by rw [h1]; rfl
        rw [hid] at this
        exact absurd (hb j hj) (by rw [this]; exact Nat.lt_irrefl _)
    · have hcond : ((generateImage user req s.db).1.status == 202) = false := by
        simpa using hne2
      have happ : applySubmit user req s = s := by
        simp [applySubmit, hcond, hdb]
      rw [happ] at hj'
      exact absurd (congrArg ImageGeneration.status
        (List.inj_on_of_nodup_map hnd hj' hj hid)) hne
  | timer id ok t s hmem =>
    cases ok with
    | true =>
      have hj'' : j' ∈ (updateGeneration s.db id (fun k =>
          { k with status := GenerationStatus.COMPLETED,
                   imageUrl := some (mockImageUrl k.style),
                   completedAt := some t })).generations := hj'
      obtain ⟨k, hk, hkeq⟩ := mem_updateGeneration.mp hj''
      rw [hkeq] at hid hne ⊢
      split at hid
      next h =>
        have hkid : k.id = id := by simpa using h
        simp only [h, if_true]
        have hkj : k = j := List.inj_on_of_nodup_map hnd hk hj hid
        have hpend : k.status = GenerationStatus.PENDING :=
          (hjobs k hk).2 (by rw [hkid]; exact hmem)
        rw [← hkj]
        exact ⟨hpend, by simp⟩
      next h =>
        simp only [h, if_false] at hne ⊢
        exact absurd (congrArg ImageGeneration.status
          (List.inj_on_of_nodup_map hnd hk hj hid)) hne
    | false =>
      have hj'' : j' ∈ (updateGeneration s.db id (fun k =>
          { k with status := GenerationStatus.FAILED,
                   errorMessage := some "Image generation failed" })).generations := hj'
      obtain ⟨k, hk, hkeq⟩ := mem_updateGeneration.mp hj''
      rw [hkeq] at hid hne ⊢
      split at hid
      next h =>
        have hkid : k.id = id := by simpa using h
        simp only [h, if_true]
        have hkj : k = j := List.inj_on_of_nodup_map hnd hk hj hid
        have hpend : k.status = GenerationStatus.PENDING :=
          (hjobs k hk).2 (by rw [hkid]; exact hmem)
        rw [← hkj]
        exact ⟨hpend, by simp⟩
      next h =>
        simp only [h, if_false] at hne ⊢
        exact absurd (congrArg ImageGeneration.status
          (List.inj_on_of_nodup_map hnd hk hj hid)) hne

theorem c1_witness :
    jobW1 ∈ stateW1.db.generations ∧ jobW2f ∈ stateW2f.db.generations ∧
      jobW1.status = GenerationStatus.PENDING ∧
      (jobW2f.status = GenerationStatus.COMPLETED ∨
        jobW2f.status = GenerationStatus.FAILED) := by
  have h := @c1_state_transitions_amended stateW1 stateW2f reachableW1
    (Step.timer 0 false 5 stateW1 (by decide)) jobW1 jobW2f (by decide) (by decide)
    (by decide) (by decide)
  exact ⟨by decide, by decide, h.1, h.2⟩

/-- A database holding one already-COMPLETED job, used to probe the update
operation. -/
def dbDone : Db := { products := [], generations := [jobW2], productImages := [], nextId := 1 }

/-- Counterexample to claim C3 as stated: the code has no
`transition(id, fromState, toState)` operation. Its status writes are
`prisma.imageGeneration.update(\x7bwhere: \x7bid\x7d\x7d)`, unconditional
on the current state. Applying the failure-path update (the claimed
RUNNING→FAILED transition, whose `fromState` RUNNING is stale here) to a
job whose current state is COMPLETED mutates the record to FAILED and
returns no ConflictError, where the claim requires the record to be left
completely unchanged. -/
theorem c3_unconditional_update_counterexample :
    findGeneration dbDone 0 = some jobW2 ∧
    jobW2.status = GenerationStatus.COMPLETED ∧
    findGeneration (simulateFailure dbDone 0) 0 =
      some { jobW2 with status := GenerationStatus.FAILED,
                        errorMessage := some "Image generation failed" } ∧
    simulateFailure dbDone 0 ≠ dbDone :=
  ⟨by decide, by decide, by decide, by decide⟩

/-- Claim C3, amended to what the code does: the status update is
unconditional compare-free writing by job id. For any job with the given
id, whatever its current state, the update replaces it by the patched
record; no conflict is ever reported (the operation is total and returns
the new database). -/
theorem c3_update_semantics_amended (db : Db) (id : Nat) (j : ImageGeneration)
    (hj : j ∈ db.generations) (hid : j.id = id) :
    { j with status := GenerationStatus.FAILED,
             errorMessage := some "Image generation failed" }
      ∈ (simulateFailure db id).generations := by
  exact mem_updateGeneration.mpr ⟨j, hj, by simp [hid]⟩

theorem c3_witness :
    jobW2 ∈ dbDone.generations ∧ jobW2.id = 0 ∧
      { jobW2 with status := GenerationStatus.FAILED,
                   errorMessage := some "Image generation failed" }
        ∈ (simulateFailure dbDone 0).generations :=
  ⟨by decide, by decide, c3_update_semantics_amended dbDone 0 jobW2 (by decide) (by decide)⟩

/-- Claim C4: a submission that passes validation (authenticated caller;
when a productId is given, the product exists and the caller may use it)
creates a job in state PENDING and responds 202 with the new job's record,
carrying its id and the PENDING state. -/
theorem c4_submission_creates_pending (u : User) (req : GenRequest) (db : Db)
    (hvalid : ∀ pid, req.productId = some pid →
      ∃ p, findProduct db pid = some p ∧ (u.role = UserRole.ADMIN ∨ u.id = p.userId)) :
    (generateImage (some u) req db).1.status = 202 ∧
    (generateImage (some u) req db).1.body = RespBody.jobBody (createdJob u req db) ∧
    (createdJob u req db).status = GenerationStatus.PENDING ∧
    (createdJob u req db).id = db.nextId ∧
    (generateImage (some u) req db).2.generations = db.generations ++ [createdJob u req db] := by
  match hreq : req.productId with
  | none =>
    refine ⟨?_, ?_, rfl, rfl, ?_⟩ <;> simp [generateImage, hreq, createJob]
  | some pid =>
    obtain ⟨p, hp, hperm⟩ := hvalid pid hreq
    have hc : (u.role == UserRole.ADMIN || u.id == p.userId) = true := by
      rcases hperm with h | h <;> simp [h]
    refine ⟨?_, ?_, rfl, rfl, ?_⟩ <;> simp [generateImage, hreq, hp, hc, createJob]

/-- A product owned by the witness caller, and a database and request
referencing it. -/
def productW : Product := { id := 3, userId := 7, name := "mug" }

def dbP : Db := { products := [productW], generations := [], productImages := [], nextId := 0 }

def reqP : GenRequest :=
  { prompt := "a mug on a beach", style := "studio", format := "PNG", productId := some 3 }

theorem c4_witness :
    (generateImage (some userW) reqP dbP).1.status = 202 ∧
    (generateImage (some userW) reqP dbP).1.body = RespBody.jobBody (createdJob userW reqP dbP) ∧
    (createdJob userW reqP dbP).status = GenerationStatus.PENDING ∧
    (createdJob userW reqP dbP).id = dbP.nextId ∧
    (generateImage (some userW) reqP dbP).2.generations =
      dbP.generations ++ [createdJob userW reqP dbP] :=
  c4_submission_creates_pending userW reqP dbP (by
    intro pid h
    injection h with h3
    subst h3
    exact ⟨productW, by decide, Or.inr (by decide)⟩)

/-- Claim C5: the status query returns 404 when no job with the id
exists, 403 when the job exists but the caller is neither its owner nor an
admin, and otherwise 200 with the job record; it never mutates the
database. -/
theorem c5_status_query (user : Option User) (id : Nat) (db : Db) :
    (getImageGeneration user id db).2 = db ∧
    (findGeneration db id = none → (getImageGeneration user id db).1.status = 404) ∧
    (∀ j, findGeneration db id = some j →
      (canAccessGeneration user j = false → (getImageGeneration user id db).1.status = 403) ∧
      (canAccessGeneration user j = true →
        (getImageGeneration user id db).1 = { status := 200, body := RespBody.jobBody j })) := by
  match hf : findGeneration db id with
  | none =>
    refine ⟨?_, fun _ => by simp [getImageGeneration, hf], ?_⟩
    · simp [getImageGeneration, hf]
    · intro j hj
      exact absurd hj (by simp)
  | some j0 =>
    refine ⟨?_, ?_, ?_⟩
    · by_cases hc : canAccessGeneration user j0 = true <;> simp [getImageGeneration, hf, hc]
    · intro h
      exact absurd h (by simp)
    · intro j hj
      have hjj : j = j0 := (Option.some.inj hj).symm
      subst hjj
      constructor
      · intro hcf
        simp [getImageGeneration, hf, hcf]
      · intro hct
        simp [getImageGeneration, hf, hct]

/-- A database holding the PENDING witness job, owned by user 7. -/
def dbG : Db := { products := [], generations := [jobW1], productImages := [], nextId := 1 }

theorem c5_witness :
    (getImageGeneration (some userW) 0 dbG).1 =
      { status := 200, body := RespBody.jobBody jobW1 } ∧
    (getImageGeneration none 0 dbG).1.status = 403 ∧
    (getImageGeneration (some userW) 9 dbG).1.status = 404 ∧
    (getImageGeneration (some userW) 0 dbG).2 = dbG := by
  refine ⟨?_, ?_, ?_, ?_⟩
  · exact ((c5_status_query (some userW) 0 dbG).2.2 jobW1 (by decide)).2 (by decide)
  · exact ((c5_status_query none 0 dbG).2.2 jobW1 (by decide)).1 (by decide)
  · exact (c5_status_query (some userW) 9 dbG).2.1 (by decide)
  · exact (c5_status_query (some userW) 0 dbG).1

/-- Counterexample to claim C6 as stated: in a real reachable execution
whose single external attempt fails (here with maxAttempts read as 1, the
attempt that fails is the last), the job transitions to FAILED with
errorMessage "Image generation failed", not with cause RETRIES_EXHAUSTED;
the record carries no attempt counter at all and no retry machinery
exists. -/
theorem c6_retries_counterexample :
    Reachable stateW2f ∧
    jobW2f ∈ stateW2f.db.generations ∧
    jobW2f.status = GenerationStatus.FAILED ∧
    jobW2f.errorMessage = some "Image generation failed" ∧
    jobW2f.errorMessage ≠ some "RETRIES_EXHAUSTED" :=
  ⟨reachableW2f, by decide, by decide, by decide, by decide⟩

/-- Claim C6, amended to what the code does: each job is attempted at most
once. A job in a terminal state (COMPLETED or FAILED) has no scheduled
timer left, and no step of the system ever changes its record again — in
particular a failed job is never retried, so the number of attempts (one)
never exceeds any positive retry bound. -/
theorem c6_single_attempt_amended {s s' : SysState} (hr : Reachable s) (hstep : Step s s')
    {j : ImageGeneration} (hj : j ∈ s.db.generations)
    (hterm : j.status = GenerationStatus.COMPLETED ∨ j.status = GenerationStatus.FAILED) :
    j.id ∉ s.timers ∧ j ∈ s'.db.generations := by
  obtain ⟨hb, hnd, htnd, htb, hjobs⟩ := reachable_sysInv hr
  have hnotmem : j.id ∉ s.timers := by
    intro hmem
    have hpend := (hjobs j hj).2 hmem
    rcases hterm with h | h <;> rw [h] at hpend <;> cases hpend
  refine ⟨hnotmem, ?_⟩
  cases hstep with
  | submit user req s =>
    rcases generateImage_cases user req s.db with ⟨u, hu, heq⟩ | ⟨hne2, hdb⟩
    · have happ : applySubmit user req s =
          { db := (createJob u req s.db).2, timers := s.timers ++ [s.db.nextId] } := by
        simp only [applySubmit, heq]
        rfl
      rw [happ]
      show j ∈ s.db.generations ++ [createdJob u req s.db]
      exact List.mem_append.mpr (Or.inl hj)
    · have hcond : ((generateImage user req s.db).1.status == 202) = false := by
        simpa using hne2
      have happ : applySubmit user req s = s := by
        simp [applySubmit, hcond, hdb]
      rw [happ]
      exact hj
  | timer id ok t s hmem =>
    have hne : j.id ≠ id := fun h => hnotmem (h ▸ hmem)
    cases ok with
    | true => exact mem_updateGeneration.mpr ⟨j, hj, by simp [hne]⟩
    | false => exact mem_updateGeneration.mpr ⟨j, hj, by simp [hne]⟩

theorem c6_witness :
    jobW2f ∈ stateW2f.db.generations ∧
    jobW2f.status = GenerationStatus.FAILED ∧
    jobW2f.id ∉ stateW2f.timers ∧
    jobW2f ∈ (applySubmit (some userW) reqW stateW2f).db.generations := by
  have h := @c6_single_attempt_amended stateW2f (applySubmit (some userW) reqW stateW2f)
    reachableW2f (Step.submit (some userW) reqW stateW2f) jobW2f (by decide)
    (Or.inr (by decide))
  exact ⟨by decide, by decide, h.1, h.2⟩

/-- A product owned by another user (id 99), a database holding it, and a
well-formed request referencing it. -/
def productF : Product := { id := 3, userId := 99, name := "mug" }

def dbF : Db := { products := [productF], generations := [], productImages := [], nextId := 0 }

def reqF : GenRequest :=
  { prompt := "a mug on a beach", style := "studio", format := "PNG", productId := some 3 }

/-- Counterexample to claim C7 as stated: a request with a valid prompt,
style and format that references an existing product owned by someone else
fails synchronously with 403 INSUFFICIENT_PERMISSIONS — a synchronous
failure that is neither malformed input nor a missing referenced
product. -/
theorem c7_sync_failure_counterexample :
    findProduct dbF 3 = some productF ∧
    (generateImage (some userW) reqF dbF).1.status = 403 ∧
    (generateImage (some userW) reqF dbF).1.body =
      RespBody.errorBody "INSUFFICIENT_PERMISSIONS" ∧
    (generateImage (some userW) reqF dbF).2 = dbF :=
  ⟨by decide, by decide, by decide, by decide⟩

/-- Claim C7, amended to what the code does: the submission call can fail
synchronously only with 401 (missing authentication), 404 (missing
referenced product) or 403 (product the caller may not use) — malformed
input is rejected as 400 by the route-level validator before the handler
runs. In every other case it returns 202 having enqueued a PENDING job
with no error recorded; failures of the generation process itself are
recorded asynchronously in the job's errorMessage field. -/
theorem c7_sync_failures_amended (user : Option User) (req : GenRequest) (db : Db) :
    ((generateImage user req db).1.status = 202 ∨ (generateImage user req db).1.status = 401 ∨
      (generateImage user req db).1.status = 404 ∨
      (generateImage user req db).1.status = 403) ∧
    ((generateImage user req db).1.status ≠ 202 → (generateImage user req db).2 = db) ∧
    ((generateImage user req db).1.status = 202 →
      ∃ u, user = some u ∧
        (generateImage user req db).2.generations = db.generations ++ [createdJob u req db] ∧
        (createdJob u req db).status = GenerationStatus.PENDING ∧
        (createdJob u req db).errorMessage = none) := by
  match user with
  | none =>
    refine ⟨Or.inr (Or.inl (by simp [generateImage])), fun _ => by simp [generateImage], ?_⟩
    intro h
    exact absurd h (by simp [generateImage])
  | some u =>
    match hreq : req.productId with
    | some pid =>
      match hp : findProduct db pid with
      | none =>
        refine ⟨Or.inr (Or.inr (Or.inl (by simp [generateImage, hreq, hp]))),
          fun _ => by simp [generateImage, hreq, hp], ?_⟩
        intro h
        exact absurd h (by simp [generateImage, hreq, hp])
      | some p =>
        by_cases hc : (u.role == UserRole.ADMIN || u.id == p.userId) = true
        · refine ⟨Or.inl (by simp [generateImage, hreq, hp, hc, createJob]), ?_, ?_⟩
          · intro h
            exact absurd (by simp [generateImage, hreq, hp, hc, createJob]) h
          · intro _
            exact ⟨u, rfl, by simp [generateImage, hreq, hp, hc, createJob], rfl, rfl⟩
        · refine ⟨Or.inr (Or.inr (Or.inr (by simp [generateImage, hreq, hp, hc]))),
            fun _ => by simp [generateImage, hreq, hp, hc], ?_⟩
          intro h
          exact absurd h (by simp [generateImage, hreq, hp, hc])
    | none =>
      refine ⟨Or.inl (by simp [generateImage, hreq, createJob]), ?_, ?_⟩
      · intro h
        exact absurd (by simp [generateImage, hreq, createJob]) h
      · intro _
        exact ⟨u, rfl, by simp [generateImage, hreq, createJob], rfl, rfl⟩

theorem c7_witness :
    (generateImage none reqW initState.db).1.status ≠ 202 ∧
    (generateImage none reqW initState.db).2 = initState.db := by
  have h := c7_sync_failures_amended none reqW initState.db
  exact ⟨by decide, h.2.1 (by decide)⟩

/-- HTTP methods used by the image router. -/
inductive Method
  | GET
  | POST
  | PUT
  | DELETE
deriving DecidableEq, Repr

/-- The handlers the image router can dispatch to. -/
inductive Handler
  | uploadProductImageH
  | getProductImagesH
  | deleteProductImageH
  | generateImageH
  | getImageGenerationH
  | getUserImageGenerationsH
deriving DecidableEq, Repr

/-- A path segment of an Express route pattern: a literal or a named
parameter. -/
inductive Seg
  | lit (s : String)
  | param (name : String)
deriving DecidableEq, Repr

def matchSeg : Seg → String → Bool
  | Seg.lit s, x => s == x
  | Seg.param _, _ => true

def matchSegs : List Seg → List String → Bool
  | [], [] => true
  | a :: as, x :: xs => matchSeg a x && matchSegs as xs
  | _, _ => false

/-- The image router's route table (src/api/src/routes/products.ts, image
router, mounted at /api/images), in declaration order: POST
products/:productId/upload, GET products/:productId, DELETE
products/:productId/:imageId, POST generate, GET generations/:id, GET
generations. -/
def imageRoutes : List (Method × List Seg × Handler) :=
  [ (Method.POST, [Seg.lit "products", Seg.param "productId", Seg.lit "upload"],
      Handler.uploadProductImageH),
    (Method.GET, [Seg.lit "products", Seg.param "productId"], Handler.getProductImagesH),
    (Method.DELETE, [Seg.lit "products", Seg.param "productId", Seg.param "imageId"],
      Handler.deleteProductImageH),
    (Method.POST, [Seg.lit "generate"], Handler.generateImageH),
    (Method.GET, [Seg.lit "generations", Seg.param "id"], Handler.getImageGenerationH),
    (Method.GET, [Seg.lit "generations"], Handler.getUserImageGenerationsH) ]

/-- Express dispatch over the image router: the first route whose method
and pattern match handles the request; when none matches, the app falls
through to its not-found handler, which answers 404. -/
def dispatchImage (m : Method) (path : List String) : Option Handler :=
  (imageRoutes.find? (fun r => r.1 == m && matchSegs r.2.1 path)).map (fun r => r.2.2)

/-- Counterexample to claim C8 as stated: no cancel endpoint exists. A
DELETE request on a generation job's path matches no route of the image
router — the API answers 404 via the global not-found handler, never 200
for a PENDING job nor 409 for a terminal one, and no handler moves a job
to FAILED(CANCELLED). The same path under GET does match the status
handler, so the model is exercised. -/
theorem c8_no_cancel_route_counterexample :
    dispatchImage Method.DELETE ["generations", "7c9e6679"] = none ∧
    dispatchImage Method.GET ["generations", "7c9e6679"] = some Handler.getImageGenerationH :=
  ⟨by decide, by decide⟩

/-- Claim C8, amended to what the code does: the API defines no cancel
operation for generation jobs. For every job id, a DELETE request on the
generation's path is handled by no route of the image router (so Express
answers 404), and consequently no record is changed. -/
theorem c8_cancel_route_amended (id : String) :
    dispatchImage Method.DELETE ["generations", id] = none := rfl

theorem c8_witness :
    dispatchImage Method.DELETE ["generations", "j1"] = none :=
  c8_cancel_route_amended "j1"

/-- An admin caller distinct from every product owner used below. -/
def adminW : User := { id := 1, role := UserRole.ADMIN }

/-- Counterexample to claim C9 as stated: an admin whose id differs from
the product owner's submits a job for that product. The submission is
accepted (202) and the created job's owner is the admin, not the product's
owner — so at creation the job's owner does not equal the owner of the
referenced product. -/
theorem c9_admin_owner_counterexample :
    findProduct dbF 3 = some productF ∧
    (generateImage (some adminW) reqF dbF).1.status = 202 ∧
    (generateImage (some adminW) reqF dbF).2.generations =
      dbF.generations ++ [createdJob adminW reqF dbF] ∧
    (createdJob adminW reqF dbF).userId = adminW.id ∧
    productF.userId = 99 ∧
    (createdJob adminW reqF dbF).userId ≠ productF.userId :=
  ⟨by decide, by decide, by decide, by decide, by decide, by decide⟩

/-- Claim C9, amended to what the code does: ownership is checked exactly
once, at creation, and only for non-admin callers. A non-admin caller who
owns the referenced product gets a job created whose owner equals the
product's owner; a non-admin caller who does not own it is rejected with
403 and no job is created (the database is unchanged). Admins bypass the
check and own the jobs they create. -/
theorem c9_ownership_amended (u : User) (req : GenRequest) (db : Db) (pid : Nat) (p : Product)
    (hrole : u.role ≠ UserRole.ADMIN) (hpid : req.productId = some pid)
    (hp : findProduct db pid = some p) :
    (u.id = p.userId →
      (generateImage (some u) req db).1.status = 202 ∧
      (createdJob u req db).userId = p.userId ∧
      (generateImage (some u) req db).2.generations =
        db.generations ++ [createdJob u req db]) ∧
    (u.id ≠ p.userId →
      (generateImage (some u) req db).1.status = 403 ∧
      (generateImage (some u) req db).2 = db) := by
  constructor
  · intro hown
    have hc : (u.role == UserRole.ADMIN || u.id == p.userId) = true := by simp [hown]
    refine ⟨?_, ?_, ?_⟩
    · simp [generateImage, hpid, hp, hc, createJob]
    · simp [createdJob, hown]
    · simp [generateImage, hpid, hp, hc, createJob]
  · intro hown
    have hc : (u.role == UserRole.ADMIN || u.id == p.userId) = false := by
      simp [hrole, hown]
    constructor <;> simp [generateImage, hpid, hp, hc]

theorem c9_witness :
    (generateImage (some userW) reqP dbP).1.status = 202 ∧
    (createdJob userW reqP dbP).userId = productW.userId ∧
    (generateImage (some userW) reqP dbP).2.generations =
      dbP.generations ++ [createdJob userW reqP dbP] := by
  have h := c9_ownership_amended userW reqP dbP 3 productW (by decide) (by decide) (by decide)
  exact h.1 (by decide)

theorem countP_demote_self (l : List ProductImage) (pid : Nat) :
    (l.map (fun i => if i.productId == pid && i.isPrimary
        then { i with isPrimary := false } else i)).countP
      (fun i => i.productId == pid && i.isPrimary) = 0 := by
  rw [List.countP_eq_zero]
  intro i hi
  obtain ⟨i0, hi0, rfl⟩ := List.mem_map.mp hi
  split
  next h => simp
  next h => exact h

theorem countP_demote_other (l : List ProductImage) (pid pid2 : Nat) (hne : pid2 ≠ pid) :
    (l.map (fun i => if i.productId == pid && i.isPrimary
        then { i with isPrimary := false } else i)).countP
      (fun i => i.productId == pid2 && i.isPrimary) =
    l.countP (fun i => i.productId == pid2 && i.isPrimary) := by
  induction l with
  | nil => rfl
  | cons a as ih =>
    simp only [List.map_cons, List.countP_cons]
    rw [ih]
    congr 1
    split
    next h =>
      have h1 : a.productId = pid := by
        simp only [Bool.and_eq_true, beq_iff_eq] at h
        exact h.1
      simp [h1, Ne.symm hne]
    next h => rfl

/-- Success-shape of `uploadProductImage`: a 201 response can only come
from the branch that found the product, demoted existing primaries when
the new image is primary, and appended the created record. -/
theorem uploadProductImage_success_shape (user : Option User) (pid : Nat) (hasFile : Bool)
    (isPrim : Bool) (altText : Option String) (url : String) (db : Db)
    (hsucc : (uploadProductImage user pid hasFile isPrim altText url db).1.status = 201) :
    ∃ u p, user = some u ∧ findProduct db pid = some p ∧
      (uploadProductImage user pid hasFile isPrim altText url db).2.productImages =
        (if isPrim then demotePrimary db pid else db).productImages ++
          [createdImage pid url altText p isPrim
            (if isPrim then demotePrimary db pid else db)] := by
  match user with
  | none => simp [uploadProductImage] at hsucc
  | some u =>
    cases hasFile with
    | false => simp [uploadProductImage] at hsucc
    | true =>
      match hp : findProduct db pid with
      | none => simp [uploadProductImage, hp] at hsucc
      | some p =>
        by_cases hperm : (u.role == UserRole.ADMIN || u.id == p.userId) = true
        · exact ⟨u, p, rfl, rfl, by simp [uploadProductImage, hp, hperm]⟩
        · simp [uploadProductImage, hp, hperm] at hsucc

/-- Claim C10: `uploadProductImage` preserves, for every product, the
invariant that at most one stored ProductImage is primary. When the new
image is primary, every previously primary image of the product is first
demoted and the appended record is the only primary one; when it is not,
the primary count is unchanged. -/
theorem c10_single_primary_invariant (user : Option User) (pid : Nat) (hasFile : Bool)
    (isPrim : Bool) (altText : Option String) (url : String) (db : Db) (pid2 : Nat)
    (hbefore : countPrimary db pid2 ≤ 1)
    (hsucc : (uploadProductImage user pid hasFile isPrim altText url db).1.status = 201) :
    countPrimary (uploadProductImage user pid hasFile isPrim altText url db).2 pid2 ≤ 1 := by
  obtain ⟨u, p, hu, hp, himg⟩ :=
    uploadProductImage_success_shape user pid hasFile isPrim altText url db hsucc
  cases isPrim with
  | true =>
    rw [if_pos rfl] at himg
    rw [countPrimary, himg, List.countP_append]
    by_cases hpp : pid2 = pid
    · subst hpp
      have h0 : ((demotePrimary db pid2).productImages).countP
          (fun i => i.productId == pid2 && i.isPrimary) = 0 := by
        simp only [demotePrimary]
        exact countP_demote_self db.productImages pid2
      rw [h0]
      simp [createdImage, List.countP_cons]
    · have h0 : ((demotePrimary db pid).productImages).countP
          (fun i => i.productId == pid2 && i.isPrimary) =
          db.productImages.countP (fun i => i.productId == pid2 && i.isPrimary) := by
        simp only [demotePrimary]
        exact countP_demote_other db.productImages pid pid2 hpp
      rw [h0]
      have h1 : ([createdImage pid url altText p true (demotePrimary db pid)]).countP
          (fun i => i.productId == pid2 && i.isPrimary) = 0 := by
        simp [createdImage, List.countP_cons, Ne.symm hpp]
      rw [h1]
      simpa [countPrimary] using hbefore
  | false =>
    rw [if_neg (by simp)] at himg
    rw [countPrimary, himg, List.countP_append]
    have h1 : ([createdImage pid url altText p false db]).countP
        (fun i => i.productId == pid2 && i.isPrimary) = 0 := by
      simp [createdImage, List.countP_cons]
    rw [h1]
    simpa [countPrimary] using hbefore

/-- A database with one primary image for product 3 and the witness
caller owning that product. -/
def imgOld : ProductImage :=
  { id := 0, productId := 3, imageUrl := "https://cdn.example/old.webp",
    altText := "mug product image", isPrimary := true }

def dbU : Db := { products := [productW], generations := [], productImages := [imgOld], nextId := 1 }

theorem c10_witness :
    countPrimary dbU 3 ≤ 1 ∧
    (uploadProductImage (some userW) 3 true true none "https://cdn.example/new.webp" dbU).1.status
      = 201 ∧
    countPrimary
      (uploadProductImage (some userW) 3 true true none "https://cdn.example/new.webp" dbU).2 3
      ≤ 1 :=
  ⟨by decide, by decide,
    c10_single_primary_invariant (some userW) 3 true true none "https://cdn.example/new.webp"
      dbU 3 (by decide) (by decide)⟩
